import Mathlib

/-!
Shallow embedding of the kanban-poc-fastapi repository: a CRUD HTTP API over
three entities (Board, Task, User) stored in a relational database through
SQLModel/SQLAlchemy.

Modelling conventions:
- A database table is a `List` of row structures; autoincrement primary keys
  are modelled by per-table `next…Id` counters in `Store`.
- Timestamps (`datetime`) are `Nat`; the wall-clock reading `utcnow()` taken
  while serving a request is passed in as an explicit `now` argument to the
  operations whose source calls a timestamp default factory.
- `session.exec(select(T).where(T.id == id)).one()` is `execOne` on the list
  of matching rows: SQLAlchemy's `.one()` raises `NoResultFound` when no row
  matches and `MultipleResultsFound` when several do, so it returns
  `Except ApiError` and never `none`.
- `raise HTTPException(404, detail)` is `ApiError.notFound detail`; an
  exception that no handler catches (such as `NoResultFound`) surfaces to the
  client as a generic 500 server error and is kept as its own constructor.
- Pydantic request validation (HTTP 422 on missing required fields) is
  modelled for the board PATCH body, whose schema `UpdateBoard` declares both
  `name` and `updated_at` as required fields.
- Python truthiness: `if s:` on a string is `s ≠ ""`, on an `Optional` it is
  `isSome` together with the truthiness of the payload, and on a mapped row
  object it is always true (`rowTruthy`).
-/

namespace Kanban

/-- Task lifecycle states, from `Status` in app/models/task.py:
`todo`, `in_progress`, `done`. -/
inductive Status where
  | todo
  | in_progress
  | done
deriving DecidableEq, Repr

/-- A row of the `board` table (`Board` in app/models/board.py). -/
structure Board where
  id : Nat
  name : String
  created_at : Nat
  updated_at : Nat
deriving DecidableEq, Repr

/-- A row of the `user` table (`User` in app/models/user.py). -/
structure User where
  id : Nat
  name : String
  created_at : Nat
  updated_at : Nat
deriving DecidableEq, Repr

/-- A row of the `task` table (`Task` in app/models/task.py). -/
structure Task where
  id : Nat
  name : String
  description : String
  created_at : Nat
  updated_at : Nat
  status : Status
  author_id : Option Nat
  assignee_id : Option Nat
  board_id : Option Nat
deriving DecidableEq, Repr

/-- The database: one list per table plus autoincrement counters.
(The `board_participant` join table takes part in no claimed operation and is
omitted.) -/
structure Store where
  boards : List Board
  users : List User
  tasks : List Task
  nextBoardId : Nat
  nextUserId : Nat
  nextTaskId : Nat
deriving DecidableEq, Repr

/-- The empty database produced by `create_db_and_tables` on a fresh engine. -/
def emptyStore : Store :=
  { boards := [], users := [], tasks := [], nextBoardId := 0, nextUserId := 0,
    nextTaskId := 0 }

/-- How a request can fail.
`notFound` is an explicit `HTTPException(404, detail)`.
`validationError` is pydantic rejecting the request body (HTTP 422).
`noResultFound` / `multipleResultsFound` are SQLAlchemy exceptions escaping
from `.one()`; nothing in the application catches them, so they surface as a
generic 500 server error, not as a 404 response. -/
inductive ApiError where
  | notFound (detail : String)
  | validationError
  | noResultFound
  | multipleResultsFound
deriving DecidableEq, Repr

deriving instance DecidableEq for Except

/-- `session.exec(query).one()`: exactly one row or a raised exception. -/
def execOne {α : Type} (rows : List α) : Except ApiError α :=
  match rows with
  | [] => .error .noResultFound
  | [x] => .ok x
  | _ => .error .multipleResultsFound

/-- Python truthiness of a mapped row object: an ORM instance is always
truthy, so `if not row:` after a successful `.one()` can never fire. -/
def rowTruthy {α : Type} (_ : α) : Bool := true

namespace BoardService

/-- `create_board` from app/routers/board.py: insert a new board; `id` is
assigned by the autoincrement key and both timestamps by the `utcnow`
default factory. -/
def create_board (name : String) (now : Nat) (s : Store) : Board × Store :=
  let board : Board :=
    { id := s.nextBoardId, name := name, created_at := now, updated_at := now }
  (board, { s with boards := s.boards ++ [board],
                   nextBoardId := s.nextBoardId + 1 })

/-- `get_board` from app/routers/board.py. `.one()` raises on a miss, so the
`if not board:` 404 guard after it is unreachable. -/
def get_board (id : Nat) (s : Store) : Except ApiError Board :=
  match execOne (s.boards.filter (fun b => b.id == id)) with
  | .error e => .error e
  | .ok board =>
    if !(rowTruthy board) then
      .error (.notFound "Board not found")
    else
      .ok board

/-- `update_board` from app/routers/board.py. `if new_name:` applies the name
only when it is a non-empty string. `Board` declares no `description` column,
so `board.description = new_description` only sets a transient attribute that
is never persisted; it does not change the row. The function never touches
`created_at` or `updated_at`. -/
def update_board (id : Nat) (s : Store) (new_name : String)
    (new_description : String) : Except ApiError (Board × Store) :=
  match execOne (s.boards.filter (fun b => b.id == id)) with
  | .error e => .error e
  | .ok board =>
    if !(rowTruthy board) then
      .error (.notFound "Board not found")
    else
      let board := if new_name ≠ "" then { board with name := new_name } else board
      let _transient_description :=
        if new_description ≠ "" then new_description else ""
      (.ok (board,
        { s with boards := s.boards.map (fun b => if b.id == id then board else b) }))

/-- `delete_board` from app/routers/board.py: `.one()` then hard delete. -/
def delete_board (id : Nat) (s : Store) : Except ApiError Store :=
  match execOne (s.boards.filter (fun b => b.id == id)) with
  | .error e => .error e
  | .ok board =>
    if !(rowTruthy board) then
      .error (.notFound "Board not found")
    else
      .ok { s with boards := s.boards.filter (fun b => b.id != id) }

end BoardService

namespace TaskService

/-- `create_task` from app/routers/task.py. -/
def create_task (name : String) (now : Nat) (s : Store) (description : String)
    (status_ : Status) (author_id : Option Nat) (board_id : Option Nat)
    (assignee_id : Option Nat) : Task × Store :=
  let task : Task :=
    { id := s.nextTaskId, name := name, description := description,
      created_at := now, updated_at := now, status := status_,
      author_id := author_id, assignee_id := assignee_id, board_id := board_id }
  (task, { s with tasks := s.tasks ++ [task], nextTaskId := s.nextTaskId + 1 })

/-- `get_task` from app/routers/task.py; same dead 404 guard as `get_board`. -/
def get_task (id : Nat) (s : Store) : Except ApiError Task :=
  match execOne (s.tasks.filter (fun t => t.id == id)) with
  | .error e => .error e
  | .ok task =>
    if !(rowTruthy task) then
      .error (.notFound "Task not found")
    else
      .ok task

/-- `update_task` from app/routers/task.py: name/description apply only when
non-empty (`if new_name:`), status/author/assignee/board apply only when not
`None`. Timestamps are never touched. -/
def update_task (id : Nat) (s : Store) (new_name : String)
    (new_description : String) (new_status : Option Status)
    (new_author_id : Option Nat) (new_assignee_id : Option Nat)
    (new_board_id : Option Nat) : Except ApiError (Task × Store) :=
  match execOne (s.tasks.filter (fun t => t.id == id)) with
  | .error e => .error e
  | .ok task =>
    if !(rowTruthy task) then
      .error (.notFound "Task not found")
    else
      let task := if new_name ≠ "" then { task with name := new_name } else task
      let task :=
        if new_description ≠ "" then { task with description := new_description }
        else task
      let task :=
        match new_status with
        | some st => { task with status := st }
        | none => task
      let task :=
        match new_author_id with
        | some a => { task with author_id := some a }
        | none => task
      let task :=
        match new_assignee_id with
        | some a => { task with assignee_id := some a }
        | none => task
      let task :=
        match new_board_id with
        | some b => { task with board_id := some b }
        | none => task
      (.ok (task,
        { s with tasks := s.tasks.map (fun t => if t.id == id then task else t) }))

/-- `delete_task` from app/routers/task.py. -/
def delete_task (id : Nat) (s : Store) : Except ApiError Store :=
  match execOne (s.tasks.filter (fun t => t.id == id)) with
  | .error e => .error e
  | .ok task =>
    if !(rowTruthy task) then
      .error (.notFound "Task not found")
    else
      .ok { s with tasks := s.tasks.filter (fun t => t.id != id) }

/-- `get_task_with_author` from app/routers/task.py: fetch the task, then
`_ = task.author` forces the relationship (a read of the related user row);
the task row itself is returned unmodified. -/
def get_task_with_author (id : Nat) (s : Store) : Except ApiError Task :=
  match execOne (s.tasks.filter (fun t => t.id == id)) with
  | .error e => .error e
  | .ok task =>
    if !(rowTruthy task) then
      .error (.notFound "Task not found")
    else
      let _author := task.author_id.bind (fun a => s.users.find? (fun u => u.id == a))
      .ok task

/-- `get_task_with_board` from app/routers/task.py: same shape, forcing the
board relationship instead. -/
def get_task_with_board (id : Nat) (s : Store) : Except ApiError Task :=
  match execOne (s.tasks.filter (fun t => t.id == id)) with
  | .error e => .error e
  | .ok task =>
    if !(rowTruthy task) then
      .error (.notFound "Task not found")
    else
      let _board := task.board_id.bind (fun b => s.boards.find? (fun x => x.id == b))
      .ok task

end TaskService

/-- Plain case-sensitive substring containment (Python's `q in name`): what
the specification describes. It coincides with `sqlLike` exactly when `q`
contains no LIKE wildcard characters. -/
def strContains (hay needle : String) : Bool :=
  decide (needle.toList <:+: hay.toList)

/-- Case-insensitive version of `strContains`, used only to state that a name
matching the query under case folding alone is excluded from results. -/
def strContainsCI (hay needle : String) : Bool :=
  strContains (String.mk (hay.toList.map Char.toLower))
    (String.mk (needle.toList.map Char.toLower))

/-- Request body schema `UpdateTask` from app/models/task.py: all data fields
optional (absent and JSON `null` both parse to `none`). The schema also
declares `updated_at` with a module-load-time default; the update endpoint
never reads it, and it is carried here for fidelity. -/
structure UpdateTask where
  name : Option String
  description : Option String
  status : Option Status
  assignee_id : Option Nat
  board_id : Option Nat
  updated_at : Nat
deriving DecidableEq, Repr

/-- Request body schema `CreateTask` from app/models/task.py: `name`,
`description` and `status` required; the three references optional. -/
structure CreateTask where
  name : String
  description : String
  status : Status
  assignee_id : Option Nat
  author_id : Option Nat
  board_id : Option Nat
deriving DecidableEq, Repr

/-- Validated `UpdateBoard` body from app/models/board.py: **both** `name`
and `updated_at` are declared as required (non-Optional) fields. -/
structure UpdateBoard where
  name : String
  updated_at : Nat
deriving DecidableEq, Repr

/-- A raw PATCH /boards/{id} JSON body before validation: each field either
present (`some`) or absent/null (`none`). -/
structure RawBoardPatchBody where
  name : Option String
  updated_at : Option Nat
deriving DecidableEq, Repr

/-- Pydantic validation of `UpdateBoard`: both declared fields are required
and non-Optional, so a body missing either one is rejected with HTTP 422. -/
def parseUpdateBoard (body : RawBoardPatchBody) : Except ApiError UpdateBoard :=
  match body.name, body.updated_at with
  | some n, some u => .ok { name := n, updated_at := u }
  | _, _ => .error .validationError

/-- Validated `UpdateUser` body from app/models/user.py: `name` and
`updated_at` are both required fields. -/
structure UpdateUser where
  name : String
  updated_at : Nat
deriving DecidableEq, Repr

namespace BoardApi

/-- `create_board_endpoint` from app/api/board.py. -/
def create_board_endpoint (name : String) (now : Nat) (s : Store) :
    Board × Store :=
  BoardService.create_board name now s

/-- `get_board_endpoint` from app/api/board.py. -/
def get_board_endpoint (board_id : Nat) (s : Store) : Except ApiError Board :=
  BoardService.get_board board_id s

/-- `update_board_endpoint` from app/api/board.py: validate the body against
`UpdateBoard`, then call the service with
`new_name = getattr(payload, "name", "") or ""` (which is just the validated
name, with `""` staying `""`) and no description. -/
def update_board_endpoint (board_id : Nat) (body : RawBoardPatchBody)
    (s : Store) : Except ApiError (Board × Store) :=
  match parseUpdateBoard body with
  | .error e => .error e
  | .ok payload => BoardService.update_board board_id s payload.name ""

/-- `delete_board_endpoint` from app/api/board.py. -/
def delete_board_endpoint (board_id : Nat) (s : Store) : Except ApiError Store :=
  BoardService.delete_board board_id s

end BoardApi

namespace TaskApi

/-- `create_task` endpoint from app/api/task.py: passes the payload fields
through to the service. -/
def create_task (payload : CreateTask) (now : Nat) (s : Store) : Task × Store :=
  TaskService.create_task payload.name now s payload.description payload.status
    payload.author_id payload.board_id payload.assignee_id

/-- `list_tasks` from app/api/task.py: starts from `select(Task)` and chains
one `.where` clause per filter that is not `None`. -/
def list_tasks (board_id : Option Nat) (author_id : Option Nat)
    (assignee_id : Option Nat) (status_ : Option Status) (s : Store) :
    List Task :=
  let query := s.tasks
  let query :=
    match board_id with
    | some b => query.filter (fun t => t.board_id == some b)
    | none => query
  let query :=
    match author_id with
    | some a => query.filter (fun t => t.author_id == some a)
    | none => query
  let query :=
    match assignee_id with
    | some a => query.filter (fun t => t.assignee_id == some a)
    | none => query
  let query :=
    match status_ with
    | some st => query.filter (fun t => t.status == st)
    | none => query
  query

/-- `get_task` endpoint from app/api/task.py. -/
def get_task (task_id : Nat) (s : Store) : Except ApiError Task :=
  TaskService.get_task task_id s

/-- `update_task` endpoint from app/api/task.py: converts the payload with
`getattr(payload, "name", "") or ""` (so `None` and `""` both become `""`),
passes status/assignee/board through, and **always passes `None` for
`new_author_id`**. -/
def update_task (task_id : Nat) (payload : UpdateTask) (s : Store) :
    Except ApiError (Task × Store) :=
  TaskService.update_task task_id s
    (payload.name.getD "")
    (payload.description.getD "")
    payload.status
    none
    payload.assignee_id
    payload.board_id

/-- `delete_task` endpoint from app/api/task.py. -/
def delete_task (task_id : Nat) (s : Store) : Except ApiError Store :=
  TaskService.delete_task task_id s

/-- `get_task_with_author` endpoint from app/api/task.py. -/
def get_task_with_author (task_id : Nat) (s : Store) : Except ApiError Task :=
  TaskService.get_task_with_author task_id s

/-- `get_task_with_board` endpoint from app/api/task.py. -/
def get_task_with_board (task_id : Nat) (s : Store) : Except ApiError Task :=
  TaskService.get_task_with_board task_id s

end TaskApi

namespace UserApi

/-- `session.get(User, user_id)`: primary-key lookup returning `None` on a
miss (unlike `.one()`, which raises). -/
def sessionGetUser (user_id : Nat) (s : Store) : Option User :=
  s.users.find? (fun u => u.id == user_id)

/-- `create_user` from app/api/user.py. -/
def create_user (name : String) (now : Nat) (s : Store) : User × Store :=
  let user : User :=
    { id := s.nextUserId, name := name, created_at := now, updated_at := now }
  (user, { s with users := s.users ++ [user], nextUserId := s.nextUserId + 1 })

/-- `get_user` from app/api/user.py: `session.get` miss gives an explicit
404, so the user endpoints really do return NotFound. -/
def get_user (user_id : Nat) (s : Store) : Except ApiError User :=
  match sessionGetUser user_id s with
  | none => .error (.notFound "User not found")
  | some user => .ok user

/-- `update_user` from app/api/user.py: `if payload.name:` applies the name
when non-empty; then
`user.updated_at = getattr(payload, "updated_at", None) or datetime.now()`.
`UpdateUser.updated_at` is a required field and a `datetime` object is always
truthy, so the client-supplied value is always used and the
`datetime.now()` (`now`) alternative is dead code. -/
def update_user (user_id : Nat) (payload : UpdateUser) (now : Nat) (s : Store) :
    Except ApiError (User × Store) :=
  match sessionGetUser user_id s with
  | none => .error (.notFound "User not found")
  | some user =>
    let user := if payload.name ≠ "" then { user with name := payload.name } else user
    let user := { user with updated_at := payload.updated_at }
    let _unused_now := now
    .ok (user,
      { s with users := s.users.map (fun u => if u.id == user_id then user else u) })

/-- `delete_user` from app/api/user.py. -/
def delete_user (user_id : Nat) (s : Store) : Except ApiError Store :=
  match sessionGetUser user_id s with
  | none => .error (.notFound "User not found")
  | some _user =>
    .ok { s with users := s.users.filter (fun u => u.id != user_id) }

end UserApi

/-! ### Derived notions used by the specification theorems -/

/-- The field-update chain in the body of `update_task`, as a pure function on
one row. `update_task_ok` below proves that a successful `update_task` applies
exactly this chain to the unique matching row. -/
def applyTaskUpdate (t : Task) (new_name new_description : String)
    (new_status : Option Status) (new_author_id new_assignee_id new_board_id :
    Option Nat) : Task :=
  let t := if new_name ≠ "" then { t with name := new_name } else t
  let t :=
    if new_description ≠ "" then { t with description := new_description } else t
  let t :=
    match new_status with
    | some st => { t with status := st }
    | none => t
  let t :=
    match new_author_id with
    | some a => { t with author_id := some a }
    | none => t
  let t :=
    match new_assignee_id with
    | some a => { t with assignee_id := some a }
    | none => t
  let t :=
    match new_board_id with
    | some b => { t with board_id := some b }
    | none => t
  t

/-- Does a request outcome surface to the client as an explicit HTTP 404
NotFound response? -/
def isNotFound {α : Type} : Except ApiError α → Bool
  | .error (.notFound _) => true
  | _ => false

/-- Database well-formedness: every stored primary key is below the table's
autoincrement counter (true of every store the application builds, since keys
are only ever handed out by the counter). -/
def storeWF (s : Store) : Prop :=
  (∀ b ∈ s.boards, b.id < s.nextBoardId) ∧
  (∀ u ∈ s.users, u.id < s.nextUserId) ∧
  (∀ t ∈ s.tasks, t.id < s.nextTaskId)

instance (s : Store) : Decidable (storeWF s) := by
  unfold storeWF
  infer_instance

/-- Run a sequence of PATCH /tasks/{id} requests against the store; a request
that fails leaves the store unchanged (the transaction never commits). -/
def runUpdates (s : Store) (reqs : List (Nat × UpdateTask)) : Store :=
  reqs.foldl
    (fun st r =>
      match TaskApi.update_task r.1 r.2 st with
      | .ok (_, st') => st'
      | .error _ => st)
    s

/-! ### Concrete sample data for counterexamples and witnesses -/

/-- A store holding one board, one user and one task, each with id 0. -/
def c1Task : Task :=
  { id := 0, name := "T", description := "d", created_at := 1, updated_at := 1,
    status := .todo, author_id := none, assignee_id := none, board_id := none }

def c1Board : Board := { id := 0, name := "B", created_at := 1, updated_at := 1 }

def c1User : User := { id := 0, name := "U", created_at := 1, updated_at := 1 }

def c1Store : Store :=
  { boards := [c1Board], users := [c1User], tasks := [c1Task],
    nextBoardId := 1, nextUserId := 1, nextTaskId := 1 }

/-- `c1Store` after a successful DELETE /tasks/0. -/
def c1StoreDel : Store := { c1Store with tasks := [] }

/-- Board whose row was last written at time 5. -/
def c2Board : Board := { id := 1, name := "Old", created_at := 5, updated_at := 5 }

def c2Store : Store :=
  { boards := [c2Board], users := [], tasks := [],
    nextBoardId := 2, nextUserId := 0, nextTaskId := 0 }

/-- The row `update_board` produces for the rename. -/
def c2BoardAfter : Board := { c2Board with name := "Renamed" }

def c2StoreAfter : Store := { c2Store with boards := [c2BoardAfter] }

/-- Task used to exercise the partial-update endpoint. -/
def c3Task : Task :=
  { id := 0, name := "Old", description := "odesc", created_at := 1,
    updated_at := 1, status := .todo, author_id := some 4, assignee_id := some 5,
    board_id := some 6 }

def c3Store : Store :=
  { boards := [], users := [], tasks := [c3Task],
    nextBoardId := 0, nextUserId := 0, nextTaskId := 1 }

/-- A PATCH body that renames the task, sends an empty-string description,
moves it to board 9, sets it done, and omits the assignee. -/
def c3Payload : UpdateTask :=
  { name := some "New", description := some "", status := some .done,
    assignee_id := none, board_id := some 9, updated_at := 0 }

def c3TaskAfter : Task := { c3Task with name := "New", status := .done, board_id := some 9 }

def c3StoreAfter : Store := { c3Store with tasks := [c3TaskAfter] }

/-- Task create payload used for the create-then-get witness. -/
def c5Payload : CreateTask :=
  { name := "A1", description := "d", status := .todo, assignee_id := none,
    author_id := some 2, board_id := some 1 }

def c7Payload : UpdateTask :=
  { name := some "Renamed", description := none, status := some .done,
    assignee_id := some 8, board_id := some 9, updated_at := 0 }

def c7TaskAfter : Task :=
  { c3Task with
    name := "Renamed", status := .done, assignee_id := some 8,
    board_id := some 9 }

def c7StoreAfter : Store := { c3Store with tasks := [c7TaskAfter] }

def c9Store : Store :=
  { boards := [{ id := 1, name := "Old Name", created_at := 1, updated_at := 1 }],
    users := [], tasks := [], nextBoardId := 2, nextUserId := 0, nextTaskId := 0 }

/-- The body the repo's own board test sends: just a name. -/
def c9NameOnlyBody : RawBoardPatchBody := { name := some "New Name", updated_at := none }

/-- A body that does satisfy `UpdateBoard` validation. -/
def c9FullBody : RawBoardPatchBody := { name := some "New Name", updated_at := some 3 }

/-- A task that starts assigned (user 5) and attached to board 6. -/
def c10Task : Task :=
  { id := 1, name := "T", description := "", created_at := 0, updated_at := 0,
    status := .todo, author_id := none, assignee_id := some 5, board_id := some 6 }

def c10Store : Store :=
  { boards := [], users := [], tasks := [c10Task],
    nextBoardId := 0, nextUserId := 0, nextTaskId := 2 }

/-- Two PATCH requests that try to clear the references: one sending explicit
nulls, one renaming only. -/
def c10Reqs : List (Nat × UpdateTask) :=
  [(1, { name := none, description := none, status := none, assignee_id := none,
         board_id := none, updated_at := 0 }),
   (1, { name := some "still here", description := none, status := none,
         assignee_id := none, board_id := none, updated_at := 0 })]

/-- The task row after `c10Reqs`: renamed, references intact. -/
def c10TaskAfter : Task :=
  { id := 1, name := "still here", description := "", created_at := 0,
    updated_at := 0, status := .todo, author_id := none, assignee_id := some 5,
    board_id := some 6 }

/-- PATCH /users/0 body used for the timestamp theorem. -/
def c2UserPayload : UpdateUser := { name := "NewUser", updated_at := 42 }

def c2TaskAfter : Task := { c1Task with name := "NewTask" }

def c2TStoreAfter : Store := { c1Store with tasks := [c2TaskAfter] }

def c2UserAfter : User := { c1User with name := "NewUser", updated_at := 42 }

def c2UStoreAfter : Store := { c1Store with users := [c2UserAfter] }

/-- Rows produced by creating into the empty store at time 3. -/
def c5Board : Board := { id := 0, name := "B", created_at := 3, updated_at := 3 }

def c5StoreB : Store := { emptyStore with boards := [c5Board], nextBoardId := 1 }

def c5User : User := { id := 0, name := "U", created_at := 3, updated_at := 3 }

def c5StoreU : Store := { emptyStore with users := [c5User], nextUserId := 1 }

def c5Task : Task :=
  { id := 0, name := "A1", description := "d", created_at := 3, updated_at := 3,
    status := .todo, author_id := some 2, assignee_id := none, board_id := some 1 }

def c5StoreT : Store := { emptyStore with tasks := [c5Task], nextTaskId := 1 }

/-! ### Helper lemmas -/

theorem filter_append_singleton {α : Type} (p : α → Bool) (l : List α) (a : α)
    (hl : ∀ x ∈ l, p x = false) (ha : p a = true) :
    (l ++ [a]).filter p = [a] := by
  induction l with
  | nil => simp [List.filter_cons, ha]
  | cons x xs ih =>
    rw [List.cons_append, List.filter_cons,
      if_neg (by simp [hl x (List.mem_cons_self x xs)])]
    exact ih fun y hy => hl y (List.mem_cons_of_mem x hy)

theorem find?_append_singleton {α : Type} (p : α → Bool) (l : List α) (a : α)
    (hl : ∀ x ∈ l, p x = false) (ha : p a = true) :
    (l ++ [a]).find? p = some a := by
  induction l with
  | nil => simp [List.find?, ha]
  | cons x xs ih =>
    rw [List.cons_append]
    rw [List.find?_cons_of_neg _ (by simp [hl x (List.mem_cons_self x xs)])]
    exact ih fun y hy => hl y (List.mem_cons_of_mem x hy)

/-- On a lookup miss, `get_board` propagates `NoResultFound`; its explicit 404
branch is unreachable because `.one()` either raises or returns a truthy row. -/
theorem get_board_never_notFound (id : Nat) (s : Store) :
    isNotFound (BoardService.get_board id s) = false := by
  unfold BoardService.get_board
  rcases hl : s.boards.filter (fun b => b.id == id) with _ | ⟨x, _ | ⟨y, l⟩⟩ <;>
    simp [hl, execOne, rowTruthy, isNotFound]

theorem update_board_never_notFound (id : Nat) (s : Store) (nn nd : String) :
    isNotFound (BoardService.update_board id s nn nd) = false := by
  unfold BoardService.update_board
  rcases hl : s.boards.filter (fun b => b.id == id) with _ | ⟨x, _ | ⟨y, l⟩⟩ <;>
    simp [hl, execOne, rowTruthy, isNotFound]

theorem delete_board_never_notFound (id : Nat) (s : Store) :
    isNotFound (BoardService.delete_board id s) = false := by
  unfold BoardService.delete_board
  rcases hl : s.boards.filter (fun b => b.id == id) with _ | ⟨x, _ | ⟨y, l⟩⟩ <;>
    simp [hl, execOne, rowTruthy, isNotFound]

theorem get_task_never_notFound (id : Nat) (s : Store) :
    isNotFound (TaskService.get_task id s) = false := by
  unfold TaskService.get_task
  rcases hl : s.tasks.filter (fun t => t.id == id) with _ | ⟨x, _ | ⟨y, l⟩⟩ <;>
    simp [hl, execOne, rowTruthy, isNotFound]

theorem update_task_never_notFound (id : Nat) (s : Store) (nn nd : String)
    (nst : Option Status) (nau nasg nbd : Option Nat) :
    isNotFound (TaskService.update_task id s nn nd nst nau nasg nbd) = false := by
  unfold TaskService.update_task
  rcases hl : s.tasks.filter (fun t => t.id == id) with _ | ⟨x, _ | ⟨y, l⟩⟩ <;>
    simp [hl, execOne, rowTruthy, isNotFound]

theorem delete_task_never_notFound (id : Nat) (s : Store) :
    isNotFound (TaskService.delete_task id s) = false := by
  unfold TaskService.delete_task
  rcases hl : s.tasks.filter (fun t => t.id == id) with _ | ⟨x, _ | ⟨y, l⟩⟩ <;>
    simp [hl, execOne, rowTruthy, isNotFound]

theorem get_task_with_author_never_notFound (id : Nat) (s : Store) :
    isNotFound (TaskService.get_task_with_author id s) = false := by
  unfold TaskService.get_task_with_author
  rcases hl : s.tasks.filter (fun t => t.id == id) with _ | ⟨x, _ | ⟨y, l⟩⟩ <;>
    simp [hl, execOne, rowTruthy, isNotFound]

theorem get_task_with_board_never_notFound (id : Nat) (s : Store) :
    isNotFound (TaskService.get_task_with_board id s) = false := by
  unfold TaskService.get_task_with_board
  rcases hl : s.tasks.filter (fun t => t.id == id) with _ | ⟨x, _ | ⟨y, l⟩⟩ <;>
    simp [hl, execOne, rowTruthy, isNotFound]

/-- A successful `update_task` applies exactly the `applyTaskUpdate` chain to
the unique row matched by the id filter and writes it back. -/
theorem update_task_ok (id : Nat) (s : Store) (nn nd : String)
    (nst : Option Status) (nau nasg nbd : Option Nat) (t : Task)
    (h : s.tasks.filter (fun x => x.id == id) = [t]) :
    TaskService.update_task id s nn nd nst nau nasg nbd =
      .ok (applyTaskUpdate t nn nd nst nau nasg nbd,
        { s with
          tasks := s.tasks.map fun x =>
            if x.id == id then applyTaskUpdate t nn nd nst nau nasg nbd else x }) := by
  unfold TaskService.update_task applyTaskUpdate
  rw [h]
  simp [execOne, rowTruthy]

theorem update_board_ok (id : Nat) (s : Store) (nn nd : String) (b : Board)
    (h : s.boards.filter (fun x => x.id == id) = [b]) :
    BoardService.update_board id s nn nd =
      .ok (if nn ≠ "" then { b with name := nn } else b,
        { s with
          boards := s.boards.map fun x =>
            if x.id == id then (if nn ≠ "" then { b with name := nn } else b)
            else x }) := by
  unfold BoardService.update_board
  rw [h]
  simp [execOne, rowTruthy]

theorem update_user_ok (uid : Nat) (p : UpdateUser) (now : Nat) (s : Store)
    (u : User) (h : UserApi.sessionGetUser uid s = some u) :
    UserApi.update_user uid p now s =
      .ok ({ (if p.name ≠ "" then { u with name := p.name } else u) with
             updated_at := p.updated_at },
        { s with
          users := s.users.map fun x =>
            if x.id == uid then
              { (if p.name ≠ "" then { u with name := p.name } else u) with
                updated_at := p.updated_at }
            else x }) := by
  unfold UserApi.update_user
  rw [h]

theorem applyTaskUpdate_id (t : Task) (nn nd : String) (nst : Option Status)
    (nau nasg nbd : Option Nat) :
    (applyTaskUpdate t nn nd nst nau nasg nbd).id = t.id := by
  unfold applyTaskUpdate
  cases nst <;> cases nau <;> cases nasg <;> cases nbd <;> split_ifs <;> rfl

theorem applyTaskUpdate_created_at (t : Task) (nn nd : String)
    (nst : Option Status) (nau nasg nbd : Option Nat) :
    (applyTaskUpdate t nn nd nst nau nasg nbd).created_at = t.created_at := by
  unfold applyTaskUpdate
  cases nst <;> cases nau <;> cases nasg <;> cases nbd <;> split_ifs <;> rfl

theorem applyTaskUpdate_updated_at (t : Task) (nn nd : String)
    (nst : Option Status) (nau nasg nbd : Option Nat) :
    (applyTaskUpdate t nn nd nst nau nasg nbd).updated_at = t.updated_at := by
  unfold applyTaskUpdate
  cases nst <;> cases nau <;> cases nasg <;> cases nbd <;> split_ifs <;> rfl

theorem applyTaskUpdate_name (t : Task) (nn nd : String) (nst : Option Status)
    (nau nasg nbd : Option Nat) :
    (applyTaskUpdate t nn nd nst nau nasg nbd).name =
      if nn = "" then t.name else nn := by
  unfold applyTaskUpdate
  cases nst <;> cases nau <;> cases nasg <;> cases nbd <;> split_ifs <;>
    first | rfl | (exfalso; simp_all)

theorem applyTaskUpdate_description (t : Task) (nn nd : String)
    (nst : Option Status) (nau nasg nbd : Option Nat) :
    (applyTaskUpdate t nn nd nst nau nasg nbd).description =
      if nd = "" then t.description else nd := by
  unfold applyTaskUpdate
  cases nst <;> cases nau <;> cases nasg <;> cases nbd <;> split_ifs <;>
    first | rfl | (exfalso; simp_all)

theorem applyTaskUpdate_status (t : Task) (nn nd : String) (nst : Option Status)
    (nau nasg nbd : Option Nat) :
    (applyTaskUpdate t nn nd nst nau nasg nbd).status = nst.getD t.status := by
  unfold applyTaskUpdate
  cases nst <;> cases nau <;> cases nasg <;> cases nbd <;> split_ifs <;> rfl

theorem applyTaskUpdate_author (t : Task) (nn nd : String) (nst : Option Status)
    (nau nasg nbd : Option Nat) :
    (applyTaskUpdate t nn nd nst nau nasg nbd).author_id =
      (nau.map some).getD t.author_id := by
  unfold applyTaskUpdate
  cases nst <;> cases nau <;> cases nasg <;> cases nbd <;> split_ifs <;> rfl

theorem applyTaskUpdate_assignee (t : Task) (nn nd : String) (nst : Option Status)
    (nau nasg nbd : Option Nat) :
    (applyTaskUpdate t nn nd nst nau nasg nbd).assignee_id =
      (nasg.map some).getD t.assignee_id := by
  unfold applyTaskUpdate
  cases nst <;> cases nau <;> cases nasg <;> cases nbd <;> split_ifs <;> rfl

theorem applyTaskUpdate_board (t : Task) (nn nd : String) (nst : Option Status)
    (nau nasg nbd : Option Nat) :
    (applyTaskUpdate t nn nd nst nau nasg nbd).board_id =
      (nbd.map some).getD t.board_id := by
  unfold applyTaskUpdate
  cases nst <;> cases nau <;> cases nasg <;> cases nbd <;> split_ifs <;> rfl

/-- One PATCH /tasks/{id} request cannot turn a non-null `assignee_id` of any
stored task with id `i` into null. -/
theorem update_step_preserves_assignee (j i : Nat) (p : UpdateTask)
    (s s' : Store) (t' : Task)
    (hE : TaskApi.update_task j p s = .ok (t', s'))
    (h : ∀ t ∈ s.tasks, t.id = i → t.assignee_id.isSome = true) :
    ∀ t ∈ s'.tasks, t.id = i → t.assignee_id.isSome = true := by
  unfold TaskApi.update_task at hE
  rcases hl : s.tasks.filter (fun x => x.id == j) with _ | ⟨t0, _ | ⟨t1, rest⟩⟩
  · unfold TaskService.update_task at hE
    rw [hl] at hE
    simp [execOne] at hE
  · rw [update_task_ok j s (p.name.getD "") (p.description.getD "")
      p.status none p.assignee_id p.board_id t0 hl] at hE
    injection hE with hpair
    injection hpair with h1 h2
    subst h1 h2
    intro t ht hti
    rw [List.mem_map] at ht
    obtain ⟨x, hx, rfl⟩ := ht
    by_cases hxj : x.id = j
    · have hmem : x ∈ s.tasks.filter (fun y => y.id == j) :=
        List.mem_filter.mpr ⟨hx, by simp [hxj]⟩
      rw [hl] at hmem
      simp at hmem
      subst hmem
      simp only [hxj, beq_self_eq_true, if_true] at hti ⊢
      rw [applyTaskUpdate_assignee]
      cases hpa : p.assignee_id with
      | some a => simp
      | none =>
        show x.assignee_id.isSome = true
        apply h x hx
        rw [applyTaskUpdate_id] at hti
        exact hti
    · have hc : (x.id == j) = false := by simp [hxj]
      simp only [hc, Bool.false_eq_true, if_false] at hti ⊢
      exact h x hx hti
  · unfold TaskService.update_task at hE
    rw [hl] at hE
    simp [execOne] at hE

theorem runUpdates_preserves_assignee (i : Nat) (reqs : List (Nat × UpdateTask))
    (s : Store) (h : ∀ t ∈ s.tasks, t.id = i → t.assignee_id.isSome = true) :
    ∀ t ∈ (runUpdates s reqs).tasks, t.id = i → t.assignee_id.isSome = true := by
  induction reqs generalizing s with
  | nil => exact h
  | cons r rs ih =>
    simp only [runUpdates, List.foldl_cons]
    have step : ∀ t ∈ (match TaskApi.update_task r.1 r.2 s with
        | .ok (_, st') => st'
        | .error _ => s).tasks, t.id = i → t.assignee_id.isSome = true := by
      rcases hE : TaskApi.update_task r.1 r.2 s with e | ⟨t', s'⟩
      · simp only [hE]
        exact h
      · simp only [hE]
        exact update_step_preserves_assignee r.1 i r.2 s s' t' hE h
    exact ih _ step

theorem update_step_preserves_board (j i : Nat) (p : UpdateTask)
    (s s' : Store) (t' : Task)
    (hE : TaskApi.update_task j p s = .ok (t', s'))
    (h : ∀ t ∈ s.tasks, t.id = i → t.board_id.isSome = true) :
    ∀ t ∈ s'.tasks, t.id = i → t.board_id.isSome = true := by
  unfold TaskApi.update_task at hE
  rcases hl : s.tasks.filter (fun x => x.id == j) with _ | ⟨t0, _ | ⟨t1, rest⟩⟩
  · unfold TaskService.update_task at hE
    rw [hl] at hE
    simp [execOne] at hE
  · rw [update_task_ok j s (p.name.getD "") (p.description.getD "")
      p.status none p.assignee_id p.board_id t0 hl] at hE
    injection hE with hpair
    injection hpair with h1 h2
    subst h1 h2
    intro t ht hti
    rw [List.mem_map] at ht
    obtain ⟨x, hx, rfl⟩ := ht
    by_cases hxj : x.id = j
    · have hmem : x ∈ s.tasks.filter (fun y => y.id == j) :=
        List.mem_filter.mpr ⟨hx, by simp [hxj]⟩
      rw [hl] at hmem
      simp at hmem
      subst hmem
      simp only [hxj, beq_self_eq_true, if_true] at hti ⊢
      rw [applyTaskUpdate_board]
      cases hpa : p.board_id with
      | some a => simp
      | none =>
        show x.board_id.isSome = true
        apply h x hx
        rw [applyTaskUpdate_id] at hti
        exact hti
    · have hc : (x.id == j) = false := by simp [hxj]
      simp only [hc, Bool.false_eq_true, if_false] at hti ⊢
      exact h x hx hti
  · unfold TaskService.update_task at hE
    rw [hl] at hE
    simp [execOne] at hE

theorem runUpdates_preserves_board (i : Nat) (reqs : List (Nat × UpdateTask))
    (s : Store) (h : ∀ t ∈ s.tasks, t.id = i → t.board_id.isSome = true) :
    ∀ t ∈ (runUpdates s reqs).tasks, t.id = i → t.board_id.isSome = true := by
  induction reqs generalizing s with
  | nil => exact h
  | cons r rs ih =>
    simp only [runUpdates, List.foldl_cons]
    have step : ∀ t ∈ (match TaskApi.update_task r.1 r.2 s with
        | .ok (_, st') => st'
        | .error _ => s).tasks, t.id = i → t.board_id.isSome = true := by
      rcases hE : TaskApi.update_task r.1 r.2 s with e | ⟨t', s'⟩
      · simp only [hE]
        exact h
      · simp only [hE]
        exact update_step_preserves_board r.1 i r.2 s s' t' hE h
    exact ih _ step

/-! ### Claim theorems -/

/-- Claim C1 (code bug). The claim says every missed id lookup on Board, Task
and User get/update/delete surfaces HTTP 404. In the code only the User
endpoints do: the Board and Task services call `.one()`, which raises
`NoResultFound` on a miss, so their `if not row:` 404 guards can never fire
(first six conjuncts) and a missing id — including a get right after a
delete — surfaces the uncaught `NoResultFound` (HTTP 500), as the concrete
conjuncts show. The final two conjuncts show the User endpoints really do
return the 404 the claim describes. -/
theorem C1_missing_id_lookup :
    (∀ (id : Nat) (s : Store), isNotFound (BoardService.get_board id s) = false) ∧
    (∀ (id : Nat) (s : Store) (nn nd : String),
      isNotFound (BoardService.update_board id s nn nd) = false) ∧
    (∀ (id : Nat) (s : Store), isNotFound (BoardService.delete_board id s) = false) ∧
    (∀ (id : Nat) (s : Store), isNotFound (TaskService.get_task id s) = false) ∧
    (∀ (id : Nat) (s : Store) (nn nd : String) (nst : Option Status)
      (nau nasg nbd : Option Nat),
      isNotFound (TaskService.update_task id s nn nd nst nau nasg nbd) = false) ∧
    (∀ (id : Nat) (s : Store), isNotFound (TaskService.delete_task id s) = false) ∧
    TaskService.get_task 7 c1Store = .error .noResultFound ∧
    BoardService.get_board 7 c1Store = .error .noResultFound ∧
    BoardService.delete_board 7 c1Store = .error .noResultFound ∧
    BoardService.update_board 7 c1Store "x" "" = .error .noResultFound ∧
    TaskService.update_task 7 c1Store "x" "" none none none none =
      .error .noResultFound ∧
    TaskService.delete_task 7 c1Store = .error .noResultFound ∧
    TaskService.delete_task 0 c1Store = .ok c1StoreDel ∧
    TaskService.get_task 0 c1StoreDel = .error .noResultFound ∧
    UserApi.get_user 7 c1Store = .error (.notFound "User not found") ∧
    UserApi.delete_user 7 c1Store = .error (.notFound "User not found") := by
  refine ⟨get_board_never_notFound, update_board_never_notFound,
    delete_board_never_notFound, get_task_never_notFound,
    update_task_never_notFound, delete_task_never_notFound, ?_⟩
  decide

/-- Claim C2, counterexample. The claim says a successful update refreshes
`updated_at` to the time of the mutation. `update_board` never reads the
clock: renaming the board whose `updated_at` is 5 — at mutation time 10, or
any other time — returns the renamed row with `updated_at` still 5. -/
theorem C2_counterexample_updated_at_not_refreshed :
    BoardService.update_board 1 c2Store "Renamed" "" =
      .ok (c2BoardAfter, c2StoreAfter) ∧
    c2BoardAfter.name = "Renamed" ∧
    c2BoardAfter.updated_at = 5 ∧
    (c2BoardAfter.updated_at == 10) = false := by
  decide

/-- Claim C2, amended. `created_at` is never changed by any update, but
`updated_at` is refreshed by none of the board and task updates (both
timestamps pass through unchanged); the user update sets `updated_at` to the
value the client sent in the request body (a required field of
`UpdateUser`), not to the server's mutation time. -/
theorem C2_timestamps :
    (∀ (s sb : Store) (id : Nat) (nn nd : String) (b b' : Board),
      s.boards.filter (fun x => x.id == id) = [b] →
      BoardService.update_board id s nn nd = .ok (b', sb) →
      b'.created_at = b.created_at ∧ b'.updated_at = b.updated_at) ∧
    (∀ (s st2 : Store) (id : Nat) (nn nd : String) (nst : Option Status)
      (nau nasg nbd : Option Nat) (t t' : Task),
      s.tasks.filter (fun x => x.id == id) = [t] →
      TaskService.update_task id s nn nd nst nau nasg nbd = .ok (t', st2) →
      t'.created_at = t.created_at ∧ t'.updated_at = t.updated_at) ∧
    (∀ (s su : Store) (uid now : Nat) (p : UpdateUser) (u u' : User),
      UserApi.sessionGetUser uid s = some u →
      UserApi.update_user uid p now s = .ok (u', su) →
      u'.created_at = u.created_at ∧ u'.updated_at = p.updated_at) := by
  refine ⟨?_, ?_, ?_⟩
  · intro s sb id nn nd b b' hf hupd
    rw [update_board_ok id s nn nd b hf] at hupd
    injection hupd with h
    injection h with h1 h2
    subst h1
    constructor <;> split <;> rfl
  · intro s st2 id nn nd nst nau nasg nbd t t' hf hupd
    rw [update_task_ok id s nn nd nst nau nasg nbd t hf] at hupd
    injection hupd with h
    injection h with h1 h2
    subst h1
    exact ⟨applyTaskUpdate_created_at t nn nd nst nau nasg nbd,
      applyTaskUpdate_updated_at t nn nd nst nau nasg nbd⟩
  · intro s su uid now p u u' hf hupd
    rw [update_user_ok uid p now s u hf] at hupd
    injection hupd with h
    injection h with h1 h2
    subst h1
    constructor
    · show (if p.name ≠ "" then { u with name := p.name } else u).created_at = _
      split <;> rfl
    · rfl

/-- Witness for C2_timestamps at concrete stores: rename board 1 of
`c2Store`, rename task 0 and user 0 of `c1Store`. -/
theorem C2_timestamps_witness :
    (c2BoardAfter.created_at = c2Board.created_at ∧
      c2BoardAfter.updated_at = c2Board.updated_at) ∧
    (c2TaskAfter.created_at = c1Task.created_at ∧
      c2TaskAfter.updated_at = c1Task.updated_at) ∧
    (c2UserAfter.created_at = c1User.created_at ∧
      c2UserAfter.updated_at = c2UserPayload.updated_at) :=
  ⟨C2_timestamps.1 c2Store c2StoreAfter 1 "Renamed" "" c2Board c2BoardAfter
      (by decide) (by decide),
   C2_timestamps.2.1 c1Store c2TStoreAfter 0 "NewTask" "" none none none none
      c1Task c2TaskAfter (by decide) (by decide),
   C2_timestamps.2.2 c1Store c2UStoreAfter 0 9 c2UserPayload c1User c2UserAfter
      (by decide) (by decide)⟩

/-- Claim C3. For an existing task, the PATCH endpoint leaves a field
unchanged when it is omitted, null, or (for the string fields) the empty
string, and overwrites it with exactly the supplied value otherwise. -/
theorem C3_update_semantics (s s' : Store) (task_id : Nat)
    (payload : UpdateTask) (t t' : Task)
    (hfind : s.tasks.filter (fun x => x.id == task_id) = [t])
    (hupd : TaskApi.update_task task_id payload s = .ok (t', s')) :
    ((payload.name = none ∨ payload.name = some "") → t'.name = t.name) ∧
    (∀ v, payload.name = some v → v ≠ "" → t'.name = v) ∧
    ((payload.description = none ∨ payload.description = some "") →
      t'.description = t.description) ∧
    (∀ v, payload.description = some v → v ≠ "" → t'.description = v) ∧
    (payload.status = none → t'.status = t.status) ∧
    (∀ v, payload.status = some v → t'.status = v) ∧
    (payload.assignee_id = none → t'.assignee_id = t.assignee_id) ∧
    (∀ v, payload.assignee_id = some v → t'.assignee_id = some v) ∧
    (payload.board_id = none → t'.board_id = t.board_id) ∧
    (∀ v, payload.board_id = some v → t'.board_id = some v) := by
  unfold TaskApi.update_task at hupd
  rw [update_task_ok task_id s (payload.name.getD "") (payload.description.getD "")
    payload.status none payload.assignee_id payload.board_id t hfind] at hupd
  injection hupd with h
  injection h with h1 h2
  subst h1
  refine ⟨?_, ?_, ?_, ?_, ?_, ?_, ?_, ?_, ?_, ?_⟩
  · rintro (h | h) <;> simp [h, applyTaskUpdate_name]
  · intro v hv hne
    simp [hv, applyTaskUpdate_name, hne]
  · rintro (h | h) <;> simp [h, applyTaskUpdate_description]
  · intro v hv hne
    simp [hv, applyTaskUpdate_description, hne]
  · intro h
    simp [h, applyTaskUpdate_status]
  · intro v hv
    simp [hv, applyTaskUpdate_status]
  · intro h
    simp [h, applyTaskUpdate_assignee]
  · intro v hv
    simp [hv, applyTaskUpdate_assignee]
  · intro h
    simp [h, applyTaskUpdate_board]
  · intro v hv
    simp [hv, applyTaskUpdate_board]

/-- Witness for C3_update_semantics: PATCH task 0 of `c3Store` with
`c3Payload` (new name "New", empty-string description, new done state,
omitted assignee, new board 9). -/
theorem C3_update_semantics_witness :
    c3TaskAfter.name = "New" ∧
    c3TaskAfter.description = c3Task.description ∧
    c3TaskAfter.status = Status.done ∧
    c3TaskAfter.assignee_id = c3Task.assignee_id ∧
    c3TaskAfter.board_id = some 9 := by
  have h := C3_update_semantics c3Store c3StoreAfter 0 c3Payload c3Task
    c3TaskAfter (by decide) (by decide)
  exact ⟨h.2.1 "New" (by decide) (by decide),
    h.2.2.1 (Or.inr (by decide)),
    h.2.2.2.2.2.1 Status.done (by decide),
    h.2.2.2.2.2.2.1 (by decide),
    h.2.2.2.2.2.2.2.2.2 9 (by decide)⟩

/-- Claim C4. A task is in the output of GET /tasks exactly when it is stored
and matches every supplied filter; a task matching only some supplied
filters is excluded. -/
theorem C4_list_tasks_conjunctive (bid aid sid : Option Nat)
    (st : Option Status) (s : Store) (t : Task) :
    t ∈ TaskApi.list_tasks bid aid sid st s ↔
      t ∈ s.tasks ∧
      (∀ v, bid = some v → t.board_id = some v) ∧
      (∀ v, aid = some v → t.author_id = some v) ∧
      (∀ v, sid = some v → t.assignee_id = some v) ∧
      (∀ v, st = some v → t.status = v) := by
  unfold TaskApi.list_tasks
  cases bid <;> cases aid <;> cases sid <;> cases st <;>
    simp [List.mem_filter, beq_iff_eq] <;> tauto

/-- Claim C5. Creating a board, user or task in a well-formed store and
immediately fetching it by the returned id yields exactly the row that was
stored, whose fields are the creation arguments. -/
theorem C5_create_then_get (s sb su st2 : Store) (now : Nat)
    (bname uname : String) (tp : CreateTask) (b : Board) (u : User) (t : Task)
    (hwf : storeWF s)
    (hb : BoardService.create_board bname now s = (b, sb))
    (hu : UserApi.create_user uname now s = (u, su))
    (ht : TaskApi.create_task tp now s = (t, st2)) :
    BoardService.get_board b.id sb = .ok b ∧ b.name = bname ∧
    UserApi.get_user u.id su = .ok u ∧ u.name = uname ∧
    TaskService.get_task t.id st2 = .ok t ∧ t.name = tp.name ∧
    t.description = tp.description ∧ t.status = tp.status ∧
    t.author_id = tp.author_id ∧ t.assignee_id = tp.assignee_id ∧
    t.board_id = tp.board_id := by
  simp only [BoardService.create_board] at hb
  simp only [UserApi.create_user] at hu
  simp only [TaskApi.create_task, TaskService.create_task] at ht
  injection hb with hb1 hb2
  injection hu with hu1 hu2
  injection ht with ht1 ht2
  subst hb1 hb2 hu1 hu2 ht1 ht2
  refine ⟨?_, rfl, ?_, rfl, ?_, rfl, rfl, rfl, rfl, rfl, rfl⟩
  · unfold BoardService.get_board
    rw [filter_append_singleton (fun x => x.id == s.nextBoardId) s.boards _
      (fun x hx => by simpa using Nat.ne_of_lt (hwf.1 x hx)) (by simp)]
    rfl
  · unfold UserApi.get_user UserApi.sessionGetUser
    rw [find?_append_singleton (fun x => x.id == s.nextUserId) s.users _
      (fun x hx => by simpa using Nat.ne_of_lt (hwf.2.1 x hx)) (by simp)]
  · unfold TaskService.get_task
    rw [filter_append_singleton (fun x => x.id == s.nextTaskId) s.tasks _
      (fun x hx => by simpa using Nat.ne_of_lt (hwf.2.2 x hx)) (by simp)]
    rfl

/-- Witness for C5_create_then_get: create "B", "U" and the `c5Payload` task
into the empty store at time 3 and fetch each one back. -/
theorem C5_create_then_get_witness :
    BoardService.get_board c5Board.id c5StoreB = .ok c5Board ∧
    c5Board.name = "B" ∧
    UserApi.get_user c5User.id c5StoreU = .ok c5User ∧
    c5User.name = "U" ∧
    TaskService.get_task c5Task.id c5StoreT = .ok c5Task ∧
    c5Task.name = c5Payload.name ∧
    c5Task.description = c5Payload.description ∧
    c5Task.status = c5Payload.status ∧
    c5Task.author_id = c5Payload.author_id ∧
    c5Task.assignee_id = c5Payload.assignee_id ∧
    c5Task.board_id = c5Payload.board_id :=
  C5_create_then_get emptyStore c5StoreB c5StoreU c5StoreT 3 "B" "U" c5Payload
    c5Board c5User c5Task (by decide) (by decide) (by decide) (by decide)

/-- Claim C7. The PATCH /tasks/{id} endpoint always passes null for the
author change, so a successful update leaves `author_id` exactly as it was,
whatever the request body contains. -/
theorem C7_author_id_frame (s s' : Store) (task_id : Nat)
    (payload : UpdateTask) (t t' : Task)
    (hfind : s.tasks.filter (fun x => x.id == task_id) = [t])
    (hupd : TaskApi.update_task task_id payload s = .ok (t', s')) :
    t'.author_id = t.author_id := by
  unfold TaskApi.update_task at hupd
  rw [update_task_ok task_id s (payload.name.getD "") (payload.description.getD "")
    payload.status none payload.assignee_id payload.board_id t hfind] at hupd
  injection hupd with h
  injection h with h1 h2
  subst h1
  simp [applyTaskUpdate_author]

/-- Witness for C7_author_id_frame: a PATCH that changes name, state,
assignee and board leaves `author_id` untouched. -/
theorem C7_author_id_frame_witness :
    c7TaskAfter.author_id = c3Task.author_id :=
  C7_author_id_frame c3Store c7StoreAfter 0 c7Payload c3Task c7TaskAfter
    (by decide) (by decide)

/-- Claim C8 (code bug). The claim says /tasks/{id}/author and
/tasks/{id}/board return 404 when the task does not exist. As with C1, the
`.one()` call raises `NoResultFound` first, so the endpoints can never
produce a 404 (first two conjuncts) and a missing id surfaces
`NoResultFound` (HTTP 500). The second half of the claim does hold: when the
task exists with a null relation, the endpoints return it unchanged. -/
theorem C8_relationship_endpoints :
    (∀ (id : Nat) (s : Store),
      isNotFound (TaskService.get_task_with_author id s) = false) ∧
    (∀ (id : Nat) (s : Store),
      isNotFound (TaskService.get_task_with_board id s) = false) ∧
    TaskApi.get_task_with_author 7 c1Store = .error .noResultFound ∧
    TaskApi.get_task_with_board 7 c1Store = .error .noResultFound ∧
    TaskApi.get_task_with_author 0 c1Store = .ok c1Task ∧
    TaskApi.get_task_with_board 0 c1Store = .ok c1Task := by
  refine ⟨get_task_with_author_never_notFound,
    get_task_with_board_never_notFound, ?_⟩
  decide

/-- Claim C9 (code bug). The claim says PATCH /boards/{id} accepts a body of
just `{name}` and returns 200, or 404 for a missing board. `UpdateBoard`
declares `updated_at` as a required field, so the name-only body is rejected
by validation (HTTP 422); and on a missing id the service raises
`NoResultFound` (HTTP 500), never 404. With a fully valid body and an
existing board, the update does succeed. -/
theorem C9_board_patch_name_only :
    BoardApi.update_board_endpoint 1 c9NameOnlyBody c9Store =
      .error .validationError ∧
    BoardApi.update_board_endpoint 99 c9FullBody c9Store =
      .error .noResultFound ∧
    (∀ (id : Nat) (s : Store),
      isNotFound (BoardApi.update_board_endpoint id c9FullBody s) = false) ∧
    BoardApi.update_board_endpoint 1 c9FullBody c9Store =
      .ok ({ id := 1, name := "New Name", created_at := 1, updated_at := 1 },
        { c9Store with
          boards := [{ id := 1, name := "New Name", created_at := 1,
                       updated_at := 1 }] }) := by
  refine ⟨by decide, by decide, ?_, by decide⟩
  intro id s
  show isNotFound (BoardService.update_board id s "New Name" "") = false
  exact update_board_never_notFound id s "New Name" ""

/-- Claim C10. Once a stored task has a non-null `assignee_id` (resp.
`board_id`), no sequence of PATCH /tasks requests can make it null again:
the update applies those fields only when a value is supplied, and null or
omitted leaves the current reference in place. -/
theorem C10_nonnull_refs_preserved (i : Nat) (s : Store)
    (reqs : List (Nat × UpdateTask)) :
    ((∀ t ∈ s.tasks, t.id = i → t.assignee_id.isSome = true) →
      ∀ t ∈ (runUpdates s reqs).tasks, t.id = i → t.assignee_id.isSome = true) ∧
    ((∀ t ∈ s.tasks, t.id = i → t.board_id.isSome = true) →
      ∀ t ∈ (runUpdates s reqs).tasks, t.id = i → t.board_id.isSome = true) :=
  ⟨fun h => runUpdates_preserves_assignee i reqs s h,
   fun h => runUpdates_preserves_board i reqs s h⟩

/-- Witness for C10_nonnull_refs_preserved: after `c10Reqs` — one request
sending explicit nulls, one renaming — task 1 keeps its assignee and board. -/
theorem C10_nonnull_refs_preserved_witness :
    c10TaskAfter.assignee_id.isSome = true ∧
    c10TaskAfter.board_id.isSome = true :=
  ⟨(C10_nonnull_refs_preserved 1 c10Store c10Reqs).1 (by decide) c10TaskAfter
      (by decide) (by decide),
   (C10_nonnull_refs_preserved 1 c10Store c10Reqs).2 (by decide) c10TaskAfter
      (by decide) (by decide)⟩

end Kanban
